import Mathlib

/-!
Shallow embedding of the GPS-coordinates geoid-interpolation program
(`src/main.cpp`) and proofs of its specified properties.

Modelling conventions:
* C++ `double` values are modelled as exact rationals (`ℚ`): every arithmetic
  operation performed by the program is `+`, `-`, `*`, `/`, `floor`, `ceil`.
  In `ℚ`, `x / 0 = 0`; every place where the C++ code would divide by zero
  (IEEE `inf`/`NaN`) is called out in a comment at the theorem concerned.
* C++ `int` values are modelled as `ℤ`.
* `std::vector<double>` indexing (`operator[]`, which performs no bounds
  check) is modelled with `List.getD _ 0`: an out-of-range access — undefined
  behaviour in C++ — reads the default value `0` in the model.  Every theorem
  whose statement touches such an access notes it.
* The input file is modelled as its header line (a `String`, compared exactly
  as the code does) together with its data lines, each pre-lexed into
  whitespace-delimited fields (`Token`): a field is `Token.num q` when stream
  extraction of a `double` consumes the whole field yielding `q`, and
  `Token.junk` otherwise.  This is the granularity at which
  `iss >> lon >> lat >> h` in the loader reads its input.
-/

/-- The `GeoidModel` struct of `main.cpp` (lines 40–49): grid dimensions,
origin, signed step sizes and the flat sample buffer. -/
structure GeoidModel where
  nrows : Int
  ncols : Int
  lat_min : ℚ
  lon_min : ℚ
  lat_step : ℚ
  lon_step : ℚ
  data : List ℚ
deriving DecidableEq, Repr

/-- The four out-parameters of `find_grid_indices` (`row1, col1, row2, col2`). -/
structure GridIndices where
  row1 : Int
  col1 : Int
  row2 : Int
  col2 : Int
deriving DecidableEq, Repr

/-- The clamping pattern `std::max(0, std::min(i, count - 1))` used on each of
the four indices in `find_grid_indices` (lines 70–73). -/
def clampIdx (count : Int) (i : Int) : Int :=
  max 0 (min i (count - 1))

/-- `find_grid_indices` (lines 52–74): fractional row/column position, floor
and ceiling, then clamping.  The commented-out bounds check of the source is
absent, so the function is total: no error is ever raised. -/
def find_grid_indices (model : GeoidModel) (lat lon : ℚ) : GridIndices :=
  { row1 := clampIdx model.nrows ⌊(lat - model.lat_min) / model.lat_step⌋
    row2 := clampIdx model.nrows ⌈(lat - model.lat_min) / model.lat_step⌉
    col1 := clampIdx model.ncols ⌊(lon - model.lon_min) / model.lon_step⌋
    col2 := clampIdx model.ncols ⌈(lon - model.lon_min) / model.lon_step⌉ }

/-- Flat sample access `model.data[r * model.ncols + c]` (lines 82–85).
`std::vector::operator[]` performs no bounds check; an out-of-range read is
undefined behaviour in C++ and yields `0` in the model. -/
def dataAt (model : GeoidModel) (r c : Int) : ℚ :=
  model.data.getD (r * model.ncols + c).toNat 0

/-- One linear-interpolation step `a + t * (b - a)`, the shape of the three
interpolation lines of `interpolate_geoid_height` (lines 90–92). -/
def lerp (a b t : ℚ) : ℚ :=
  a + t * (b - a)

/-- `dlat` of `interpolate_geoid_height` (line 87). -/
def dlatOf (model : GeoidModel) (idx : GridIndices) (lat : ℚ) : ℚ :=
  (lat - model.lat_min - idx.row1 * model.lat_step) / model.lat_step

/-- `dlon` of `interpolate_geoid_height` (line 88). -/
def dlonOf (model : GeoidModel) (idx : GridIndices) (lon : ℚ) : ℚ :=
  (lon - model.lon_min - idx.col1 * model.lon_step) / model.lon_step

/-- The bilinear combination of `interpolate_geoid_height` (lines 82–94) for a
given set of located indices: interpolate along longitude for each of the two
rows (`h1`, `h2`), then along latitude between them. -/
def bilinearAt (model : GeoidModel) (idx : GridIndices) (lat lon : ℚ) : ℚ :=
  lerp
    (lerp (dataAt model idx.row1 idx.col1) (dataAt model idx.row1 idx.col2)
      (dlonOf model idx lon))
    (lerp (dataAt model idx.row2 idx.col1) (dataAt model idx.row2 idx.col2)
      (dlonOf model idx lon))
    (dlatOf model idx lat)

/-- `interpolate_geoid_height` (lines 77–95): locate the cell, then apply the
bilinear combination. -/
def interpolate_geoid_height (model : GeoidModel) (lat lon : ℚ) : ℚ :=
  bilinearAt model (find_grid_indices model lat lon) lat lon

/-- `compute_topographic_height` (lines 175–180). -/
def compute_topographic_height (model : GeoidModel) (lat lon ellipsoid_height : ℚ) : ℚ :=
  ellipsoid_height - interpolate_geoid_height model lat lon

/-- The concrete 2×2 grid of the specification's concrete scenario:
`lat ∈ {40, 41}`, `lon ∈ {-9, -8}`, undulations 50, 52, 48, 49 stored
row-major. -/
def grid2x2 : GeoidModel :=
  { nrows := 2
    ncols := 2
    lat_min := 40
    lon_min := -9
    lat_step := 1
    lon_step := 1
    data := [50, 52, 48, 49] }

/-- C1: `compute_topographic_height` returns exactly the ellipsoid height
minus the interpolated geoid height, for every model and query (it is a pure
function of its arguments — the embedding is a total function with no state —
and the only failure modes are those of the interpolation itself); in
particular, whenever the interpolated geoid height is 50 and the ellipsoid
height is 148, the result is 98. -/
theorem C1_topographic_height_identity :
    (∀ (model : GeoidModel) (lat lon eh : ℚ),
        compute_topographic_height model lat lon eh
          = eh - interpolate_geoid_height model lat lon) ∧
    (∀ (model : GeoidModel) (lat lon : ℚ),
        interpolate_geoid_height model lat lon = 50 →
        compute_topographic_height model lat lon 148 = 98) := by
  refine ⟨fun model lat lon eh => rfl, fun model lat lon h => ?_⟩
  unfold compute_topographic_height
  rw [h]
  norm_num

/-- Witness for C1 at the concrete 2×2 grid: the interpolated geoid height at
the corner `(40, -9)` is 50, and the topographic height at ellipsoid height
148 there is 98. -/
theorem C1_topographic_height_identity_witness :
    interpolate_geoid_height grid2x2 40 (-9) = 50 ∧
    compute_topographic_height grid2x2 40 (-9) 148 = 98 :=
  ⟨by norm_num [interpolate_geoid_height, bilinearAt, find_grid_indices, clampIdx,
      dataAt, lerp, dlatOf, dlonOf, grid2x2, Int.toNat, List.getD],
    C1_topographic_height_identity.2 grid2x2 40 (-9)
      (by norm_num [interpolate_geoid_height, bilinearAt, find_grid_indices, clampIdx,
        dataAt, lerp, dlatOf, dlonOf, grid2x2, Int.toNat, List.getD])⟩

/-- C2: on the concrete 2×2 grid, the query at `(40.5, -8.5)` returns exactly
the bilinear average `(50 + 52 + 48 + 49) / 4 = 49.75` (the code interpolates
along longitude first for both rows, then along latitude — this is the shape
of `bilinearAt`). -/
theorem C2_concrete_bilinear_average :
    interpolate_geoid_height grid2x2 (81 / 2) (-(17 / 2)) = (50 + 52 + 48 + 49) / 4 ∧
    interpolate_geoid_height grid2x2 (81 / 2) (-(17 / 2)) = 199 / 4 := by
  constructor <;>
    norm_num [interpolate_geoid_height, bilinearAt, find_grid_indices, clampIdx,
      dataAt, lerp, dlatOf, dlonOf, grid2x2, Int.toNat, List.getD]

/-- A whitespace-delimited field of a data line, as consumed by
`iss >> lon >> lat >> h` (line 152): `num q` when stream extraction of a
`double` consumes the whole field yielding `q`, `junk` otherwise. -/
inductive Token where
  | num (value : ℚ)
  | junk
deriving DecidableEq, Repr

/-- The opened input file: the header line as a raw string, followed by the
data lines, each pre-lexed into whitespace-delimited fields.  A blank line is
an empty field list (it is still counted by the row-counting loop of lines
117–122, exactly as `std::getline` counts it). -/
structure SourceFile where
  header : String
  rows : List (List Token)
deriving DecidableEq

/-- The exact header text required at line 111. -/
def headerText : String :=
  "Longitude\tLatitude\tHeight"

/-- The tab count of the header line (lines 130–137). -/
def countTabs (s : String) : Nat :=
  s.toList.countP (fun c => c == '\t')

/-- `iss >> lon >> lat >> h` on one data line (lines 150–155): succeeds
exactly when the first three fields exist and are numeric; later fields are
never inspected. -/
def parseRow3 : List Token → Option (ℚ × ℚ × ℚ)
  | Token.num a :: Token.num b :: Token.num c :: _ => some (a, b, c)
  | _ => none

/-- The reading loop of lines 143–161: every data row must parse, else the
whole load fails. -/
def parseRows : List (List Token) → Option (List (ℚ × ℚ × ℚ))
  | [] => some []
  | r :: rs =>
    match parseRow3 r, parseRows rs with
    | some t, some ts => some (t :: ts)
    | _, _ => none

/-- The slice of the flat buffer holding one data row (lines 157–160): the
three parsed values at the first three offsets of the row's slice; the
remaining `ncols - 3` slots keep the value `0` that
`model.data.resize(nrows * ncols)` put there (line 141;
`std::vector<double>::resize` value-initialises to `0.0`). -/
def rowSlice (ncols : Nat) (t : ℚ × ℚ × ℚ) : List ℚ :=
  [t.1, t.2.1, t.2.2] ++ List.replicate (ncols - 3) 0

/-- The loader's failure mode: every `throw std::runtime_error("Invalid file
format")` of `load_geoid_model`.  (The file-open failure of lines 103–106 is
outside the model: a `SourceFile` is an already-opened source.) -/
inductive LoadError where
  | formatError
deriving DecidableEq, Repr

/-- The model assembled by `load_geoid_model` once all rows have parsed
(lines 141–171): the flat buffer, then `lon_min`/`lat_min` from the first
row's first two values, `lon_max` from flat offset `(ncols - 1) * 3`,
`lat_max` from the last row's latitude slot, and the two step divisions.
A negative or too-large flat offset is an out-of-bounds `std::vector` read
(undefined behaviour in C++) and yields `0` in the model. -/
def modelOf (nrowsCount ncolsCount : Nat) (ts : List (ℚ × ℚ × ℚ)) : GeoidModel :=
  { nrows := (nrowsCount : Int)
    ncols := (ncolsCount : Int)
    lon_min := ((ts.map (rowSlice ncolsCount)).flatten).getD 0 0
    lat_min := ((ts.map (rowSlice ncolsCount)).flatten).getD 1 0
    lon_step :=
      (((ts.map (rowSlice ncolsCount)).flatten).getD (((ncolsCount : Int) - 1) * 3).toNat 0
          - ((ts.map (rowSlice ncolsCount)).flatten).getD 0 0)
        / ((ncolsCount : ℚ) - 1)
    lat_step :=
      (((ts.map (rowSlice ncolsCount)).flatten).getD
            (((nrowsCount : Int) - 1) * (ncolsCount : Int) + 1).toNat 0
          - ((ts.map (rowSlice ncolsCount)).flatten).getD 1 0)
        / ((nrowsCount : ℚ) - 1)
    data := (ts.map (rowSlice ncolsCount)).flatten }

/-- `load_geoid_model` (lines 98–172): reject a header differing from the
exact expected text; count the data rows; derive the column count from the
tabs of the header line; parse every data row into three numeric fields
(rejecting the whole file if any row fails); then derive the grid geometry.
The two passes of the C++ code walk the same line list, so they collapse to
one here. -/
def load_geoid_model (f : SourceFile) : Except LoadError GeoidModel :=
  if f.header = headerText then
    match parseRows f.rows with
    | some ts => Except.ok (modelOf f.rows.length (countTabs f.header + 1) ts)
    | none => Except.error LoadError.formatError
  else Except.error LoadError.formatError

lemma parseRows_length {rs : List (List Token)} {ts : List (ℚ × ℚ × ℚ)}
    (h : parseRows rs = some ts) : ts.length = rs.length := by
  induction rs generalizing ts with
  | nil => simp [parseRows] at h; simp [← h]
  | cons r rs ih =>
    simp only [parseRows] at h
    cases hr : parseRow3 r with
    | none => rw [hr] at h; simp at h
    | some t =>
      rw [hr] at h
      cases hrs : parseRows rs with
      | none => rw [hrs] at h; simp at h
      | some ts2 =>
        rw [hrs] at h
        simp only [Option.some.injEq] at h
        subst h
        simp [ih hrs]

lemma parseRows_eq_none_iff {rs : List (List Token)} :
    parseRows rs = none ↔ ∃ r ∈ rs, parseRow3 r = none := by
  induction rs with
  | nil => simp [parseRows]
  | cons r rs ih =>
    simp only [parseRows]
    cases hr : parseRow3 r with
    | none => simp [hr]
    | some t =>
      cases hrs : parseRows rs with
      | none =>
        simp only [hrs] at ih
        simp [hr, hrs]
        exact ih.mp trivial
      | some ts =>
        simp only [hrs] at ih
        simp only [List.mem_cons]
        constructor
        · intro h; simp at h
        · rintro ⟨r2, hr2 | hr2, hnone⟩
          · subst hr2; rw [hr] at hnone; exact absurd hnone (by simp)
          · exact absurd (ih.mpr ⟨r2, hr2, hnone⟩) (by simp [hrs])

lemma load_ok_inv {f : SourceFile} {m : GeoidModel}
    (h : load_geoid_model f = Except.ok m) :
    f.header = headerText ∧
      ∃ ts, parseRows f.rows = some ts ∧ m = modelOf f.rows.length 3 ts := by
  unfold load_geoid_model at h
  by_cases hh : f.header = headerText
  · rw [if_pos hh] at h
    cases hp : parseRows f.rows with
    | none => rw [hp] at h; exact absurd h (by simp)
    | some ts =>
      rw [hp] at h
      simp only [Except.ok.injEq] at h
      have hc : countTabs f.header + 1 = 3 := by rw [hh]; decide
      rw [hc] at h
      exact ⟨hh, ts, rfl, h.symm⟩
  · rw [if_neg hh] at h
    exact absurd h (by simp)

/-- C5: the load fails with `FormatError` (returning no model) if and only if
the header line differs from the exact text `Longitude\tLatitude\tHeight` or
some data row cannot be parsed into three floating-point fields; in
particular a data row carrying only two numeric fields is always rejected. -/
theorem C5_format_error_iff (f : SourceFile) :
    (load_geoid_model f = Except.error LoadError.formatError ↔
      f.header ≠ headerText ∨ ∃ r ∈ f.rows, parseRow3 r = none) ∧
    (∀ a b : ℚ, parseRow3 [Token.num a, Token.num b] = none) := by
  constructor
  · unfold load_geoid_model
    by_cases hh : f.header = headerText
    · rw [if_pos hh]
      cases hp : parseRows f.rows with
      | none =>
        simp only [hh, ne_eq, not_true_eq_false, false_or]
        exact ⟨fun _ => parseRows_eq_none_iff.mp hp, fun _ => trivial⟩
      | some ts =>
        constructor
        · intro h; exact absurd h (by simp)
        · rintro (h | h)
          · exact absurd hh h
          · exact absurd (parseRows_eq_none_iff.mpr h) (by simp [hp])
    · rw [if_neg hh]
      simp [hh]
  · intro a b; rfl

/-- Witness for C5 at two concrete files: a file whose header reads
`Longitude Latitude Height` (spaces, not tabs) is rejected, and a file with
a valid header whose only data row has just two numeric fields is rejected. -/
theorem C5_format_error_iff_witness :
    load_geoid_model { header := "Longitude Latitude Height", rows := [] }
        = Except.error LoadError.formatError ∧
    load_geoid_model { header := headerText, rows := [[Token.num 1, Token.num 2]] }
        = Except.error LoadError.formatError :=
  ⟨(C5_format_error_iff _).1.mpr (Or.inl (by decide)),
    (C5_format_error_iff _).1.mpr
      (Or.inr ⟨[Token.num 1, Token.num 2], List.mem_cons_self _ _, rfl⟩)⟩

/-- C6 (evaluation at the failing input): with a valid header and zero data
rows, `load_geoid_model` does NOT fail — no throw is reached.  The code reads
`model.data[0]`, `model.data[1]`, `model.data[6]` and `model.data[-2]` out of
bounds on the empty buffer (undefined behaviour of `std::vector::operator[]`,
modelled as the value `0`) and divides `lat_max - lat_min` by
`nrows - 1 = -1`, returning a garbage model instead of the `FormatError` the
claim requires. -/
theorem C6_zero_rows_returns_model :
    load_geoid_model { header := headerText, rows := [] }
      = Except.ok
          { nrows := 0, ncols := 3, lat_min := 0, lon_min := 0,
            lat_step := 0, lon_step := 0, data := [] } := by
  show Except.ok (modelOf 0 3 []) = _
  norm_num [modelOf, GeoidModel.mk.injEq, List.getD]

/-- C8: for a source with exactly one (well-formed) data row, the load
succeeds with no error of any kind: the degenerate case is not special-cased,
and the `lat_step` computation performs the division with the divisor
`nrows - 1 = 0` unguarded.  (In `ℚ` the division by the zero divisor yields
`0`; the C++ `double` division would yield `NaN` — the point recorded here is
that the zero divisor is reached and no `DegenerateGrid` error exists.) -/
theorem C8_single_row_division_by_zero (a b c : ℚ) :
    ∃ m : GeoidModel,
      load_geoid_model
          { header := headerText, rows := [[Token.num a, Token.num b, Token.num c]] }
        = Except.ok m
      ∧ m.nrows = 1
      ∧ ((m.nrows : ℚ) - 1 = 0)
      ∧ m.lat_step = (b - b) / ((m.nrows : ℚ) - 1) := by
  refine ⟨modelOf 1 3 [(a, b, c)], rfl, rfl, by norm_num [modelOf], ?_⟩
  norm_num [modelOf, rowSlice, Int.toNat, List.getD]

/-- C7: every successful load derives its geometry exactly as claimed:
`lon_min` and `lat_min` are the first data row's first two values
(`samples[0]`, `samples[1]`), `lon_max` is read from flat offset
`(ncols - 1) * 3` and `lat_max` from the last row's latitude slot
`(nrows - 1) * ncols + 1`, each step being the corresponding difference
divided by `count - 1`.  (For `nrows = 2` the offset `(ncols - 1) * 3 = 6`
is already one past the end of the buffer — an out-of-bounds read, `0` in
the model.) -/
theorem C7_derived_geometry {f : SourceFile} {m : GeoidModel}
    (h : load_geoid_model f = Except.ok m) (h2 : 2 ≤ m.nrows) :
    m.lon_min = m.data.getD 0 0 ∧
    m.lat_min = m.data.getD 1 0 ∧
    m.lon_step
      = (m.data.getD ((m.ncols - 1) * 3).toNat 0 - m.data.getD 0 0)
        / ((m.ncols : ℚ) - 1) ∧
    m.lat_step
      = (m.data.getD ((m.nrows - 1) * m.ncols + 1).toNat 0 - m.data.getD 1 0)
        / ((m.nrows : ℚ) - 1) := by
  obtain ⟨hh, ts, hp, hm⟩ := load_ok_inv h
  subst hm
  refine ⟨rfl, rfl, ?_, ?_⟩
  · show (((ts.map (rowSlice 3)).flatten).getD ((((3 : Nat) : Int) - 1) * 3).toNat 0
        - ((ts.map (rowSlice 3)).flatten).getD 0 0) / (((3 : Nat) : ℚ) - 1)
      = (((ts.map (rowSlice 3)).flatten).getD
            ((((3 : Nat) : Int) - 1) * 3).toNat 0
          - ((ts.map (rowSlice 3)).flatten).getD 0 0)
        / (((((3 : Nat) : Int) : ℚ)) - 1)
    norm_num
  · show (((ts.map (rowSlice 3)).flatten).getD
            (((f.rows.length : Int) - 1) * ((3 : Nat) : Int) + 1).toNat 0
        - ((ts.map (rowSlice 3)).flatten).getD 1 0) / (((f.rows.length : Nat) : ℚ) - 1)
      = (((ts.map (rowSlice 3)).flatten).getD
            (((f.rows.length : Int) - 1) * ((3 : Nat) : Int) + 1).toNat 0
          - ((ts.map (rowSlice 3)).flatten).getD 1 0)
        / ((((f.rows.length : Int) : ℚ)) - 1)
    norm_num

/-- The two-row file used to witness the loader claims. -/
def fileTwoRows : SourceFile :=
  { header := headerText
    rows := [[Token.num 0, Token.num 10, Token.num 1],
             [Token.num 5, Token.num 20, Token.num 2]] }

/-- Witness for C7 at a concrete two-row file. -/
theorem C7_derived_geometry_witness :
    (modelOf 2 3 [(0, 10, 1), (5, 20, 2)]).lon_min
        = (modelOf 2 3 [(0, 10, 1), (5, 20, 2)]).data.getD 0 0 ∧
    (modelOf 2 3 [(0, 10, 1), (5, 20, 2)]).lat_min
        = (modelOf 2 3 [(0, 10, 1), (5, 20, 2)]).data.getD 1 0 ∧
    (modelOf 2 3 [(0, 10, 1), (5, 20, 2)]).lon_step
      = ((modelOf 2 3 [(0, 10, 1), (5, 20, 2)]).data.getD
            (((modelOf 2 3 [(0, 10, 1), (5, 20, 2)]).ncols - 1) * 3).toNat 0
          - (modelOf 2 3 [(0, 10, 1), (5, 20, 2)]).data.getD 0 0)
        / (((modelOf 2 3 [(0, 10, 1), (5, 20, 2)]).ncols : ℚ) - 1) ∧
    (modelOf 2 3 [(0, 10, 1), (5, 20, 2)]).lat_step
      = ((modelOf 2 3 [(0, 10, 1), (5, 20, 2)]).data.getD
            (((modelOf 2 3 [(0, 10, 1), (5, 20, 2)]).nrows - 1)
                * (modelOf 2 3 [(0, 10, 1), (5, 20, 2)]).ncols + 1).toNat 0
          - (modelOf 2 3 [(0, 10, 1), (5, 20, 2)]).data.getD 1 0)
        / (((modelOf 2 3 [(0, 10, 1), (5, 20, 2)]).nrows : ℚ) - 1) :=
  C7_derived_geometry (f := fileTwoRows) rfl (by norm_num [modelOf])

lemma flatten_rowSlice_length (ts : List (ℚ × ℚ × ℚ)) :
    ((ts.map (rowSlice 3)).flatten).length = 3 * ts.length := by
  induction ts with
  | nil => simp
  | cons t ts ih =>
    simp only [List.map_cons, List.flatten_cons, List.length_append, ih, rowSlice]
    simp
    ring

/-- C10: every successful load has exactly 3 columns — the header must match
the exact text, which contains exactly two tabs — so the buffer length is
`3 * row_count` and every slot of every row is one of the three parsed
values: the buffer is exactly the concatenation of the parsed triples, with
no unused slot.  (The `ncols > 3` garbage-slot case is unreachable.) -/
theorem C10_three_columns {f : SourceFile} {m : GeoidModel}
    (h : load_geoid_model f = Except.ok m) :
    m.ncols = 3 ∧
    m.nrows = (f.rows.length : Int) ∧
    m.data.length = 3 * f.rows.length ∧
    ∃ ts, parseRows f.rows = some ts ∧
      m.data = (ts.map (fun t : ℚ × ℚ × ℚ => [t.1, t.2.1, t.2.2])).flatten := by
  obtain ⟨hh, ts, hp, hm⟩ := load_ok_inv h
  subst hm
  refine ⟨rfl, rfl, ?_, ts, hp, ?_⟩
  · show ((ts.map (rowSlice 3)).flatten).length = 3 * f.rows.length
    rw [flatten_rowSlice_length, parseRows_length hp]
  · show (ts.map (rowSlice 3)).flatten
        = (ts.map (fun t : ℚ × ℚ × ℚ => [t.1, t.2.1, t.2.2])).flatten
    have hrs : rowSlice 3 = fun t : ℚ × ℚ × ℚ => [t.1, t.2.1, t.2.2] := by
      funext t
      simp [rowSlice]
    rw [hrs]

/-- Witness for C10 at the concrete two-row file. -/
theorem C10_three_columns_witness :
    (modelOf 2 3 [(0, 10, 1), (5, 20, 2)]).ncols = 3 ∧
    (modelOf 2 3 [(0, 10, 1), (5, 20, 2)]).nrows = (fileTwoRows.rows.length : Int) ∧
    (modelOf 2 3 [(0, 10, 1), (5, 20, 2)]).data.length = 3 * fileTwoRows.rows.length ∧
    ∃ ts, parseRows fileTwoRows.rows = some ts ∧
      (modelOf 2 3 [(0, 10, 1), (5, 20, 2)]).data
        = (ts.map (fun t : ℚ × ℚ × ℚ => [t.1, t.2.1, t.2.2])).flatten :=
  C10_three_columns (f := fileTwoRows) rfl

lemma clampIdx_of_mem {n r : Int} (h0 : 0 ≤ r) (h1 : r < n) : clampIdx n r = r := by
  unfold clampIdx
  rw [min_eq_left (by omega), max_eq_right h0]

lemma lerp_zero (a b : ℚ) : lerp a b 0 = a := by
  unfold lerp
  ring

/-- C3: querying the exact coordinates `lat_min + r * lat_step`,
`lon_min + c * lon_step` of any in-bounds grid index `(r, c)` returns exactly
the stored sample `samples[r * ncols + c]`: the fractional offsets vanish and
the floor/ceiling of the integral positions coincide, so the bilinear
interpolation degenerates to a point lookup. -/
theorem C3_roundtrip_at_grid_points (model : GeoidModel) (r c : Int)
    (hlat : model.lat_step ≠ 0) (hlon : model.lon_step ≠ 0)
    (hr0 : 0 ≤ r) (hr : r < model.nrows) (hc0 : 0 ≤ c) (hc : c < model.ncols) :
    interpolate_geoid_height model
        (model.lat_min + r * model.lat_step) (model.lon_min + c * model.lon_step)
      = model.data.getD (r * model.ncols + c).toNat 0 := by
  have hrow : (model.lat_min + (r : ℚ) * model.lat_step - model.lat_min)
      / model.lat_step = (r : ℚ) := by
    rw [add_sub_cancel_left, mul_div_cancel_right₀ _ hlat]
  have hcol : (model.lon_min + (c : ℚ) * model.lon_step - model.lon_min)
      / model.lon_step = (c : ℚ) := by
    rw [add_sub_cancel_left, mul_div_cancel_right₀ _ hlon]
  have hidx : find_grid_indices model (model.lat_min + r * model.lat_step)
      (model.lon_min + c * model.lon_step) = ⟨r, c, r, c⟩ := by
    unfold find_grid_indices
    rw [hrow, hcol]
    simp only [Int.floor_intCast, Int.ceil_intCast]
    rw [clampIdx_of_mem hr0 hr, clampIdx_of_mem hc0 hc]
  unfold interpolate_geoid_height
  rw [hidx]
  have hdlat : dlatOf model ⟨r, c, r, c⟩ (model.lat_min + r * model.lat_step) = 0 := by
    simp only [dlatOf]
    rw [div_eq_zero_iff]
    left
    ring
  have hdlon : dlonOf model ⟨r, c, r, c⟩ (model.lon_min + c * model.lon_step) = 0 := by
    simp only [dlonOf]
    rw [div_eq_zero_iff]
    left
    ring
  unfold bilinearAt
  rw [hdlat, hdlon, lerp_zero, lerp_zero]
  simp [dataAt]

/-- Witness for C3 at the concrete 2×2 grid, index `(0, 1)`: querying
`(40, -8)` returns the stored sample 52. -/
theorem C3_roundtrip_witness :
    interpolate_geoid_height grid2x2
        (grid2x2.lat_min + (0 : Int) * grid2x2.lat_step)
        (grid2x2.lon_min + (1 : Int) * grid2x2.lon_step)
      = grid2x2.data.getD (((0 : Int) * grid2x2.ncols + 1)).toNat 0 :=
  C3_roundtrip_at_grid_points grid2x2 0 1
    (by norm_num [grid2x2]) (by norm_num [grid2x2])
    (by norm_num) (by norm_num [grid2x2]) (by norm_num) (by norm_num [grid2x2])

lemma clampIdx_nonneg (n i : Int) : 0 ≤ clampIdx n i :=
  le_max_left 0 _

lemma clampIdx_le {n : Int} (i : Int) (h : 1 ≤ n) : clampIdx n i ≤ n - 1 :=
  max_le (by omega) (min_le_right _ _)

lemma clampIdx_floor_nonpos {n : Int} {x : ℚ} (hx : x ≤ 0) : clampIdx n ⌊x⌋ = 0 := by
  unfold clampIdx
  exact max_eq_left (le_trans (min_le_left _ _) (Int.floor_nonpos hx))

lemma clampIdx_ceil_nonpos {n : Int} {x : ℚ} (hx : x ≤ 0) : clampIdx n ⌈x⌉ = 0 := by
  unfold clampIdx
  have h1 : ⌈x⌉ ≤ 0 := Int.ceil_le.mpr (by exact_mod_cast hx)
  exact max_eq_left (le_trans (min_le_left _ _) h1)

lemma clampIdx_floor_ge {n : Int} {x : ℚ} (hn : 1 ≤ n) (hx : (n : ℚ) - 1 ≤ x) :
    clampIdx n ⌊x⌋ = n - 1 := by
  unfold clampIdx
  have h1 : n - 1 ≤ ⌊x⌋ := by
    rw [Int.le_floor]
    push_cast
    exact hx
  rw [min_eq_right h1, max_eq_right (by omega)]

lemma clampIdx_ceil_ge {n : Int} {x : ℚ} (hn : 1 ≤ n) (hx : (n : ℚ) - 1 ≤ x) :
    clampIdx n ⌈x⌉ = n - 1 := by
  unfold clampIdx
  have h0 : n - 1 ≤ ⌊x⌋ := by
    rw [Int.le_floor]
    push_cast
    exact hx
  have h1 : n - 1 ≤ ⌈x⌉ := le_trans h0 (Int.floor_le_ceil x)
  rw [min_eq_right h1, max_eq_right (by omega)]

lemma clamp_pair_eq {n : Int} (hn : 1 ≤ n) {u v : ℚ}
    (h : (u ≤ 0 ∧ v ≤ 0) ∨ ((n : ℚ) - 1 ≤ u ∧ (n : ℚ) - 1 ≤ v)) :
    clampIdx n ⌊u⌋ = clampIdx n ⌊v⌋ ∧ clampIdx n ⌈u⌉ = clampIdx n ⌈v⌉ := by
  rcases h with ⟨hu, hv⟩ | ⟨hu, hv⟩
  · rw [clampIdx_floor_nonpos hu, clampIdx_floor_nonpos hv,
      clampIdx_ceil_nonpos hu, clampIdx_ceil_nonpos hv]
    exact ⟨rfl, rfl⟩
  · rw [clampIdx_floor_ge hn hu, clampIdx_floor_ge hn hv,
      clampIdx_ceil_ge hn hu, clampIdx_ceil_ge hn hv]
    exact ⟨rfl, rfl⟩

lemma fgi_lat_congr (model : GeoidModel) (lat1 lat2 lon : ℚ)
    (h : clampIdx model.nrows ⌊(lat1 - model.lat_min) / model.lat_step⌋
          = clampIdx model.nrows ⌊(lat2 - model.lat_min) / model.lat_step⌋)
    (h2 : clampIdx model.nrows ⌈(lat1 - model.lat_min) / model.lat_step⌉
          = clampIdx model.nrows ⌈(lat2 - model.lat_min) / model.lat_step⌉) :
    find_grid_indices model lat1 lon = find_grid_indices model lat2 lon := by
  unfold find_grid_indices
  rw [h, h2]

lemma fgi_lon_congr (model : GeoidModel) (lat lon1 lon2 : ℚ)
    (h : clampIdx model.ncols ⌊(lon1 - model.lon_min) / model.lon_step⌋
          = clampIdx model.ncols ⌊(lon2 - model.lon_min) / model.lon_step⌋)
    (h2 : clampIdx model.ncols ⌈(lon1 - model.lon_min) / model.lon_step⌉
          = clampIdx model.ncols ⌈(lon2 - model.lon_min) / model.lon_step⌉) :
    find_grid_indices model lat lon1 = find_grid_indices model lat lon2 := by
  unfold find_grid_indices
  rw [h, h2]

/-- The smaller latitude covered by the grid: `lat_min` itself for a positive
step, `lat_min + (nrows - 1) * lat_step` for a negative one. -/
def latLowerBound (model : GeoidModel) : ℚ :=
  min model.lat_min (model.lat_min + ((model.nrows : ℚ) - 1) * model.lat_step)

/-- The larger latitude covered by the grid. -/
def latUpperBound (model : GeoidModel) : ℚ :=
  max model.lat_min (model.lat_min + ((model.nrows : ℚ) - 1) * model.lat_step)

/-- The smaller longitude covered by the grid. -/
def lonLowerBound (model : GeoidModel) : ℚ :=
  min model.lon_min (model.lon_min + ((model.ncols : ℚ) - 1) * model.lon_step)

/-- The larger longitude covered by the grid. -/
def lonUpperBound (model : GeoidModel) : ℚ :=
  max model.lon_min (model.lon_min + ((model.ncols : ℚ) - 1) * model.lon_step)

lemma axis_low_cases {n : Int} {cmin step x y : ℚ} (hstep : step ≠ 0)
    (hy : y = min cmin (cmin + ((n : ℚ) - 1) * step)) (hx : x < y) :
    ((x - cmin) / step ≤ 0 ∧ (y - cmin) / step ≤ 0) ∨
      ((n : ℚ) - 1 ≤ (x - cmin) / step ∧ (n : ℚ) - 1 ≤ (y - cmin) / step) := by
  rcases hstep.lt_or_lt with hneg | hpos
  · right
    have hy2 : y ≤ cmin + ((n : ℚ) - 1) * step := hy ▸ min_le_right _ _
    constructor
    · rw [le_div_iff_of_neg hneg]
      nlinarith
    · rw [le_div_iff_of_neg hneg]
      nlinarith
  · left
    have hy2 : y ≤ cmin := hy ▸ min_le_left _ _
    constructor
    · exact div_nonpos_of_nonpos_of_nonneg (by linarith) hpos.le
    · exact div_nonpos_of_nonpos_of_nonneg (by linarith) hpos.le

lemma axis_high_cases {n : Int} {cmin step x y : ℚ} (hstep : step ≠ 0)
    (hy : y = max cmin (cmin + ((n : ℚ) - 1) * step)) (hx : y < x) :
    ((x - cmin) / step ≤ 0 ∧ (y - cmin) / step ≤ 0) ∨
      ((n : ℚ) - 1 ≤ (x - cmin) / step ∧ (n : ℚ) - 1 ≤ (y - cmin) / step) := by
  rcases hstep.lt_or_lt with hneg | hpos
  · left
    have hy2 : cmin ≤ y := hy ▸ le_max_left _ _
    constructor
    · exact div_nonpos_of_nonneg_of_nonpos (by linarith) hneg.le
    · exact div_nonpos_of_nonneg_of_nonpos (by linarith) hneg.le
  · right
    have hy2 : cmin + ((n : ℚ) - 1) * step ≤ y := hy ▸ le_max_right _ _
    constructor
    · rw [le_div_iff₀ hpos]
      nlinarith
    · rw [le_div_iff₀ hpos]
      nlinarith

/-- C4: for every grid with at least one row and column and nonzero steps,
`find_grid_indices` is total (the Lean embedding is a total function — the
source's bounds check is commented out, so no error is ever raised) and all
four returned indices are clamped into `[0, nrows - 1]` / `[0, ncols - 1]`;
moreover a query beyond any of the four nominal bounds returns exactly the
same indices as a query placed at that nearest edge coordinate. -/
theorem C4_clamped_indices_and_edges (model : GeoidModel) (lat lon : ℚ)
    (hrows : 1 ≤ model.nrows) (hcols : 1 ≤ model.ncols)
    (hlat : model.lat_step ≠ 0) (hlon : model.lon_step ≠ 0) :
    (0 ≤ (find_grid_indices model lat lon).row1 ∧
      (find_grid_indices model lat lon).row1 ≤ model.nrows - 1 ∧
      0 ≤ (find_grid_indices model lat lon).row2 ∧
      (find_grid_indices model lat lon).row2 ≤ model.nrows - 1 ∧
      0 ≤ (find_grid_indices model lat lon).col1 ∧
      (find_grid_indices model lat lon).col1 ≤ model.ncols - 1 ∧
      0 ≤ (find_grid_indices model lat lon).col2 ∧
      (find_grid_indices model lat lon).col2 ≤ model.ncols - 1) ∧
    (lat < latLowerBound model →
      find_grid_indices model lat lon
        = find_grid_indices model (latLowerBound model) lon) ∧
    (latUpperBound model < lat →
      find_grid_indices model lat lon
        = find_grid_indices model (latUpperBound model) lon) ∧
    (lon < lonLowerBound model →
      find_grid_indices model lat lon
        = find_grid_indices model lat (lonLowerBound model)) ∧
    (lonUpperBound model < lon →
      find_grid_indices model lat lon
        = find_grid_indices model lat (lonUpperBound model)) := by
  refine ⟨?_, ?_, ?_, ?_, ?_⟩
  · unfold find_grid_indices
    exact ⟨clampIdx_nonneg _ _, clampIdx_le _ hrows, clampIdx_nonneg _ _,
      clampIdx_le _ hrows, clampIdx_nonneg _ _, clampIdx_le _ hcols,
      clampIdx_nonneg _ _, clampIdx_le _ hcols⟩
  · intro hq
    have hc := clamp_pair_eq hrows
      (axis_low_cases (n := model.nrows) hlat rfl hq)
    exact fgi_lat_congr model lat (latLowerBound model) lon hc.1 hc.2
  · intro hq
    have hc := clamp_pair_eq hrows
      (axis_high_cases (n := model.nrows) hlat rfl hq)
    exact fgi_lat_congr model lat (latUpperBound model) lon hc.1 hc.2
  · intro hq
    have hc := clamp_pair_eq hcols
      (axis_low_cases (n := model.ncols) hlon rfl hq)
    exact fgi_lon_congr model lat lon (lonLowerBound model) hc.1 hc.2
  · intro hq
    have hc := clamp_pair_eq hcols
      (axis_high_cases (n := model.ncols) hlon rfl hq)
    exact fgi_lon_congr model lat lon (lonUpperBound model) hc.1 hc.2

/-- Witness for C4 at the concrete 2×2 grid with the far-outside query
`(100, 7)`. -/
theorem C4_clamped_indices_and_edges_witness :
    (0 ≤ (find_grid_indices grid2x2 100 7).row1 ∧
      (find_grid_indices grid2x2 100 7).row1 ≤ grid2x2.nrows - 1 ∧
      0 ≤ (find_grid_indices grid2x2 100 7).row2 ∧
      (find_grid_indices grid2x2 100 7).row2 ≤ grid2x2.nrows - 1 ∧
      0 ≤ (find_grid_indices grid2x2 100 7).col1 ∧
      (find_grid_indices grid2x2 100 7).col1 ≤ grid2x2.ncols - 1 ∧
      0 ≤ (find_grid_indices grid2x2 100 7).col2 ∧
      (find_grid_indices grid2x2 100 7).col2 ≤ grid2x2.ncols - 1) ∧
    ((100 : ℚ) < latLowerBound grid2x2 →
      find_grid_indices grid2x2 100 7
        = find_grid_indices grid2x2 (latLowerBound grid2x2) 7) ∧
    (latUpperBound grid2x2 < 100 →
      find_grid_indices grid2x2 100 7
        = find_grid_indices grid2x2 (latUpperBound grid2x2) 7) ∧
    ((7 : ℚ) < lonLowerBound grid2x2 →
      find_grid_indices grid2x2 100 7
        = find_grid_indices grid2x2 100 (lonLowerBound grid2x2)) ∧
    (lonUpperBound grid2x2 < 7 →
      find_grid_indices grid2x2 100 7
        = find_grid_indices grid2x2 100 (lonUpperBound grid2x2)) :=
  C4_clamped_indices_and_edges grid2x2 100 7
    (by norm_num [grid2x2]) (by norm_num [grid2x2])
    (by norm_num [grid2x2]) (by norm_num [grid2x2])

lemma clampIdx_mono {n i j : Int} (h : i ≤ j) : clampIdx n i ≤ clampIdx n j := by
  unfold clampIdx
  exact max_le_max le_rfl (min_le_min h le_rfl)

lemma clamp_floor_between {n : Int} {x y z : ℚ} (hxz : x ≤ z) (hzy : z ≤ y)
    (h : clampIdx n ⌊x⌋ = clampIdx n ⌊y⌋) : clampIdx n ⌊z⌋ = clampIdx n ⌊x⌋ :=
  le_antisymm (le_of_le_of_eq (clampIdx_mono (Int.floor_mono hzy)) h.symm)
    (clampIdx_mono (Int.floor_mono hxz))

lemma clamp_ceil_between {n : Int} {x y z : ℚ} (hxz : x ≤ z) (hzy : z ≤ y)
    (h : clampIdx n ⌈x⌉ = clampIdx n ⌈y⌉) : clampIdx n ⌈z⌉ = clampIdx n ⌈x⌉ :=
  le_antisymm (le_of_le_of_eq (clampIdx_mono (Int.ceil_mono hzy)) h.symm)
    (clampIdx_mono (Int.ceil_mono hxz))

lemma between_of_lerp {a b t : ℚ} (h0 : 0 ≤ t) (h1 : t ≤ 1) :
    (a ≤ a + t * (b - a) ∧ a + t * (b - a) ≤ b) ∨
      (b ≤ a + t * (b - a) ∧ a + t * (b - a) ≤ a) := by
  rcases le_total a b with hab | hab
  · left
    constructor <;> nlinarith
  · right
    constructor <;> nlinarith

lemma fgi_lon_same_cell (model : GeoidModel) (lat lonA lonB t : ℚ)
    (hidx : find_grid_indices model lat lonA = find_grid_indices model lat lonB)
    (ht0 : 0 ≤ t) (ht1 : t ≤ 1) :
    find_grid_indices model lat (lonA + t * (lonB - lonA))
      = find_grid_indices model lat lonA := by
  have hfl : clampIdx model.ncols ⌊(lonA - model.lon_min) / model.lon_step⌋
      = clampIdx model.ncols ⌊(lonB - model.lon_min) / model.lon_step⌋ :=
    congrArg GridIndices.col1 hidx
  have hcl : clampIdx model.ncols ⌈(lonA - model.lon_min) / model.lon_step⌉
      = clampIdx model.ncols ⌈(lonB - model.lon_min) / model.lon_step⌉ :=
    congrArg GridIndices.col2 hidx
  have hcolC : (lonA + t * (lonB - lonA) - model.lon_min) / model.lon_step
      = (lonA - model.lon_min) / model.lon_step
        + t * ((lonB - model.lon_min) / model.lon_step
            - (lonA - model.lon_min) / model.lon_step) := by
    rcases eq_or_ne model.lon_step 0 with hs | hs
    · rw [hs]
      simp
    · field_simp
      ring
  rcases between_of_lerp (a := (lonA - model.lon_min) / model.lon_step)
      (b := (lonB - model.lon_min) / model.lon_step) ht0 ht1 with ⟨hl, hr⟩ | ⟨hl, hr⟩
  · refine fgi_lon_congr model lat _ lonA ?_ ?_
    · rw [hcolC]
      exact clamp_floor_between hl hr hfl
    · rw [hcolC]
      exact clamp_ceil_between hl hr hcl
  · refine fgi_lon_congr model lat _ lonA ?_ ?_
    · rw [hcolC]
      exact (clamp_floor_between hl hr hfl.symm).trans hfl.symm
    · rw [hcolC]
      exact (clamp_ceil_between hl hr hcl.symm).trans hcl.symm

lemma fgi_lat_same_cell (model : GeoidModel) (lon latA latB t : ℚ)
    (hidx : find_grid_indices model latA lon = find_grid_indices model latB lon)
    (ht0 : 0 ≤ t) (ht1 : t ≤ 1) :
    find_grid_indices model (latA + t * (latB - latA)) lon
      = find_grid_indices model latA lon := by
  have hfl : clampIdx model.nrows ⌊(latA - model.lat_min) / model.lat_step⌋
      = clampIdx model.nrows ⌊(latB - model.lat_min) / model.lat_step⌋ :=
    congrArg GridIndices.row1 hidx
  have hcl : clampIdx model.nrows ⌈(latA - model.lat_min) / model.lat_step⌉
      = clampIdx model.nrows ⌈(latB - model.lat_min) / model.lat_step⌉ :=
    congrArg GridIndices.row2 hidx
  have hrowC : (latA + t * (latB - latA) - model.lat_min) / model.lat_step
      = (latA - model.lat_min) / model.lat_step
        + t * ((latB - model.lat_min) / model.lat_step
            - (latA - model.lat_min) / model.lat_step) := by
    rcases eq_or_ne model.lat_step 0 with hs | hs
    · rw [hs]
      simp
    · field_simp
      ring
  rcases between_of_lerp (a := (latA - model.lat_min) / model.lat_step)
      (b := (latB - model.lat_min) / model.lat_step) ht0 ht1 with ⟨hl, hr⟩ | ⟨hl, hr⟩
  · refine fgi_lat_congr model _ latA lon ?_ ?_
    · rw [hrowC]
      exact clamp_floor_between hl hr hfl
    · rw [hrowC]
      exact clamp_ceil_between hl hr hcl
  · refine fgi_lat_congr model _ latA lon ?_ ?_
    · rw [hrowC]
      exact (clamp_floor_between hl hr hfl.symm).trans hfl.symm
    · rw [hrowC]
      exact (clamp_ceil_between hl hr hcl.symm).trans hcl.symm

/-- C9: within one located cell the interpolated height is affine in each
coordinate: for a fixed latitude and two longitudes locating to the same four
indices, the value at any convex combination of the longitudes is the same
convex combination of the two values, and symmetrically in latitude for a
fixed longitude. -/
theorem C9_cell_linearity (model : GeoidModel)
    (hlat : model.lat_step ≠ 0) (hlon : model.lon_step ≠ 0) :
    (∀ lat lonA lonB t : ℚ,
      find_grid_indices model lat lonA = find_grid_indices model lat lonB →
      0 ≤ t → t ≤ 1 →
      interpolate_geoid_height model lat (lonA + t * (lonB - lonA))
        = (1 - t) * interpolate_geoid_height model lat lonA
          + t * interpolate_geoid_height model lat lonB) ∧
    (∀ lon latA latB t : ℚ,
      find_grid_indices model latA lon = find_grid_indices model latB lon →
      0 ≤ t → t ≤ 1 →
      interpolate_geoid_height model (latA + t * (latB - latA)) lon
        = (1 - t) * interpolate_geoid_height model latA lon
          + t * interpolate_geoid_height model latB lon) := by
  constructor
  · intro lat lonA lonB t hidx ht0 ht1
    unfold interpolate_geoid_height
    rw [fgi_lon_same_cell model lat lonA lonB t hidx ht0 ht1, ← hidx]
    have hdlon : dlonOf model (find_grid_indices model lat lonA) (lonA + t * (lonB - lonA))
        = dlonOf model (find_grid_indices model lat lonA) lonA
          + t * (dlonOf model (find_grid_indices model lat lonA) lonB
              - dlonOf model (find_grid_indices model lat lonA) lonA) := by
      unfold dlonOf
      field_simp
      ring
    unfold bilinearAt lerp
    rw [hdlon]
    ring
  · intro lon latA latB t hidx ht0 ht1
    unfold interpolate_geoid_height
    rw [fgi_lat_same_cell model lon latA latB t hidx ht0 ht1, ← hidx]
    have hdlat : dlatOf model (find_grid_indices model latA lon) (latA + t * (latB - latA))
        = dlatOf model (find_grid_indices model latA lon) latA
          + t * (dlatOf model (find_grid_indices model latA lon) latB
              - dlatOf model (find_grid_indices model latA lon) latA) := by
      unfold dlatOf
      field_simp
      ring
    unfold bilinearAt lerp
    rw [hdlat]
    ring

/-- Witness for C9 on the concrete 2×2 grid: the midpoint of the two
longitudes `-35/4` and `-33/4` (both in the cell with columns 0 and 1) at
latitude `40.5` carries the average of the two interpolated values. -/
theorem C9_cell_linearity_witness :
    interpolate_geoid_height grid2x2 (81 / 2)
        ((-35 / 4) + (1 / 2) * ((-33 / 4) - (-35 / 4)))
      = (1 - 1 / 2) * interpolate_geoid_height grid2x2 (81 / 2) (-35 / 4)
        + (1 / 2) * interpolate_geoid_height grid2x2 (81 / 2) (-33 / 4) :=
  (C9_cell_linearity grid2x2 (by norm_num [grid2x2]) (by norm_num [grid2x2])).1
    (81 / 2) (-35 / 4) (-33 / 4) (1 / 2)
    (by norm_num [find_grid_indices, clampIdx, grid2x2, GridIndices.mk.injEq])
    (by norm_num) (by norm_num)
